import Mathlib

/-!
Shallow embedding of the securebackend page-render / merge pipeline
(`src/workers/pdfWorker.js`, `src/unnamed/part_000`, `src/unnamed/part_001`,
`src/routes/docs.js`, `src/queues/outputPdfQueue.js`).

JS strings are `String`, JS numbers used as counters/indexes are `Nat`,
quotas are `Int`, `undefined`/`null` is `Option.none`, thrown exceptions are
explicit error constructors, and the Mongo job record is a Lean structure.

The file is laid out as definitions first (the embedding) and theorems second
(the verification results).
-/

namespace SecureBackend

/-! ## JS string methods

The JS string methods used by the sources, evaluated on the underlying
character list so that concrete runs reduce inside the kernel. The repository
only ever applies them to ASCII emails, S3 keys and file titles. -/

/-- `String.prototype.startsWith(pre)`. -/
def jsStartsWith (s pre : String) : Bool := pre.data.isPrefixOf s.data

/-- `String.prototype.endsWith(suff)`. -/
def jsEndsWith (s suff : String) : Bool := suff.data.isSuffixOf s.data

/-- ASCII lowering of one character, as `toLowerCase` acts on ASCII. -/
def jsCharLower (c : Char) : Char :=
  if 'A' ≤ c ∧ c ≤ 'Z' then Char.ofNat (c.toNat + 32) else c

/-- `String.prototype.toLowerCase()` (ASCII). -/
def jsToLower (s : String) : String := ⟨s.data.map jsCharLower⟩

/-! ## Data model -/

/-- Job `status` field values (`'pending' | 'processing' | 'completed' | 'failed'`). -/
inductive JStatus
  | pending
  | processing
  | completed
  | failed
deriving DecidableEq, Repr

/-- Job `stage` field values (`'queued' | 'rendering' | 'merging' | 'completed' | 'failed'`). -/
inductive JStage
  | queued
  | rendering
  | merging
  | completed
  | failed
deriving DecidableEq, Repr

/-- One entry of `pageArtifacts`: `{ key, pageIndex }` as pushed by the render
worker (`$push: { pageArtifacts: { key, pageIndex } }`). -/
structure PageArtifact where
  key : String
  pageIndex : Nat
deriving DecidableEq, Repr

/-- The `DocumentJobs` record as created by `POST /assign-job` and mutated by the
workers and the reconciler. -/
structure Job where
  id : String
  email : String
  status : JStatus
  stage : JStage
  totalPages : Nat
  completedPages : Nat
  pageArtifacts : List PageArtifact
  outputDocumentId : Option String
  assignedQuota : Int
  userId : Option String
  createdBy : String
deriving DecidableEq, Repr

/-! ## Merge-worker artifact sort -/

/-- Comparator used by the merge worker:
`[...jobDoc.pageArtifacts].sort((a, b) => a.pageIndex - b.pageIndex)` sorts
ascending by `pageIndex`. -/
def artifactLE (a b : PageArtifact) : Prop := a.pageIndex ≤ b.pageIndex

instance : DecidableRel artifactLE := fun _ _ => Nat.decLe _ _

instance : IsTotal PageArtifact artifactLE := ⟨fun _ _ => Nat.le_total _ _⟩

instance : IsTrans PageArtifact artifactLE := ⟨fun _ _ _ => Nat.le_trans⟩

/-- `[...jobDoc.pageArtifacts].sort((a, b) => a.pageIndex - b.pageIndex)`:
the merge worker's ascending sort of the artifacts by `pageIndex`. -/
def sortArtifacts (l : List PageArtifact) : List PageArtifact :=
  l.insertionSort artifactLE

/-- The merge worker downloads each artifact blob in sorted order and copies its
pages into the output document in that order, so the output page sequence is the
blob sequence in `pageIndex` order. `fetchBlob` stands for the S3 download. -/
def mergeWorkerOutput (fetchBlob : String → String) (artifacts : List PageArtifact) :
    List String :=
  (sortArtifacts artifacts).map (fun a => fetchBlob a.key)

/-! ## Task queues (BullMQ) and the render-worker counter/merge-enqueue step -/

/-- Payload of a merge task: `{ jobId, email, assignedQuota, adminUserId }`. -/
structure MergeTaskData where
  jobId : String
  email : String
  assignedQuota : Int
  adminUserId : String
deriving DecidableEq, Repr

/-- A queue entry. `dedupeKey` models the optional custom `jobId` option of
`queue.add(name, data, opts)`: BullMQ collapses two adds carrying the same
custom `jobId` into one task; an add without one gets a fresh auto-generated id
and is never deduplicated. -/
structure QueueEntry (α : Type) where
  dedupeKey : Option String
  data : α
deriving DecidableEq, Repr

/-- `queue.add(name, data, opts)`: appends the task unless `opts.jobId` is a
custom key already present in the queue. -/
def queueAdd {α : Type} (q : List (QueueEntry α)) (data : α) (dedupeKey : Option String) :
    List (QueueEntry α) :=
  match dedupeKey with
  | none => q ++ [{ dedupeKey := none, data := data }]
  | some k =>
    if q.any (fun e => e.dedupeKey = some k) then q
    else q ++ [{ dedupeKey := some k, data := data }]

/-- The options every merge enqueue passes: `mergePdfQueue.add('mergeJob', {...})`
is called with no options argument in the render workers
(`src/workers/pdfWorker.js`, `src/unnamed/part_000`) and in the reconciler
(`src/routes/docs.js`), so no custom `jobId` dedupe key is supplied. -/
def mergeAddDedupeKey : Option String := none

/-- One successful render-task execution, after the job and user were found and
the page artifact was uploaded: `uid` is the resolved `user._id` and
`artifactKey` the key returned by `uploadToS3`. -/
structure RenderExec where
  jobId : String
  pageIndex : Nat
  email : String
  assignedQuota : Int
  adminUserId : String
  uid : String
  artifactKey : String
deriving DecidableEq, Repr

/-- The job record plus the merge channel, the state the render worker mutates. -/
structure PipelineState where
  job : Job
  mergeQueue : List (QueueEntry MergeTaskData)
deriving DecidableEq, Repr

/-- The merge-task payload the render worker enqueues:
`{ jobId, email: email.toLowerCase(), assignedQuota, adminUserId }`. -/
def mergeTaskOf (t : RenderExec) : MergeTaskData :=
  { jobId := t.jobId, email := jsToLower t.email, assignedQuota := t.assignedQuota,
    adminUserId := t.adminUserId }

/-- The `findByIdAndUpdate` of a successful render execution
(`src/unnamed/part_000` lines 152-160):
`$inc: { completedPages: 1 }, $push: { pageArtifacts: { key, pageIndex } },
$set: { status: 'processing', stage: 'rendering', userId: user._id }`. -/
def renderUpdated (st : PipelineState) (t : RenderExec) : Job :=
  { st.job with
    completedPages := st.job.completedPages + 1
    pageArtifacts :=
      st.job.pageArtifacts ++ [{ key := t.artifactKey, pageIndex := t.pageIndex }]
    status := .processing
    stage := .rendering
    userId := some t.uid }

/-- One successful execution of the render-task handler tail
(`src/unnamed/part_000` lines 152-178): the atomic update followed by
`if (updated.completedPages >= updated.totalPages && updated.totalPages > 0)`
enqueueing a merge task (with no dedupe key) and advancing `stage = 'merging'`. -/
def renderSuccessStep (st : PipelineState) (t : RenderExec) : PipelineState :=
  if (renderUpdated st t).totalPages ≤ (renderUpdated st t).completedPages ∧
      0 < (renderUpdated st t).totalPages then
    { job := { renderUpdated st t with stage := .merging }
      mergeQueue := queueAdd st.mergeQueue (mergeTaskOf t) mergeAddDedupeKey }
  else
    { job := renderUpdated st t, mergeQueue := st.mergeQueue }

/-- A sequence of successful render executions against one job record. -/
def runRender (st : PipelineState) (execs : List RenderExec) : PipelineState :=
  execs.foldl renderSuccessStep st

/-! ## Job creation: `POST /assign-job` (`src/unnamed/part_001` lines 83-163) -/

/-- A page-layout item of `layoutPages[i].items[j]`: `src` is a string (`some`)
or a non-string/absent value (`none`); `meta` stands for the item's other
fields, carried along by the `...item` spread. -/
structure LayoutItem where
  src : Option String
  meta : String
deriving DecidableEq, Repr

/-- One page of `layoutPages`: `items` is an array (`some`) or a
non-array/absent value (`none`). -/
structure LayoutPage where
  items : Option (List LayoutItem)
deriving DecidableEq, Repr

/-- Sanitization of one page (lines 101-109): non-array `items` becomes `[]`,
each item's non-string `src` becomes `''`. -/
def sanitizePage (p : LayoutPage) : LayoutPage :=
  { items := some ((p.items.getD []).map fun it => { it with src := some (it.src.getD "") }) }

/-- The `layoutPages` request field: absent or JS-falsy, present but not an
array, or an array of pages. -/
inductive LayoutField
  | missing
  | nonArray
  | arr (pages : List LayoutPage)
deriving DecidableEq, Repr

/-- The request body of `POST /assign-job`. -/
structure AssignBody where
  email : Option String
  assignedQuota : Option Int
  layoutPages : LayoutField
deriving DecidableEq, Repr

/-- JS truthiness of `email` in `if (!email || !assignedQuota || !layoutPages)`. -/
def emailTruthy : Option String → Bool
  | none => false
  | some s => s != ""

/-- JS truthiness of `assignedQuota` (the number 0 is falsy). -/
def quotaTruthy : Option Int → Bool
  | none => false
  | some q => q != 0

/-- JS truthiness of `layoutPages` (arrays, also empty ones, are truthy). -/
def layoutTruthy : LayoutField → Bool
  | .missing => false
  | _ => true

/-- Payload of one page render task
(`outputPdfQueue.add('renderPage', { email, assignedQuota, pageLayout,
pageIndex, adminUserId, jobId }, { jobId: baseJobId:page:index })`). -/
structure RenderTaskData where
  email : String
  assignedQuota : Int
  pageLayout : LayoutPage
  pageIndex : Nat
  adminUserId : String
  jobId : String
deriving DecidableEq, Repr

/-- Result of `POST /assign-job`: a 400/404 rejection, or 201 with the created
job record, the enqueued render tasks, and the job id returned synchronously. -/
inductive AssignResult
  | badRequest (msg : String)
  | notFound (msg : String)
  | created (job : Job) (renderTasks : List (QueueEntry RenderTaskData))
      (responseJobId : String)
deriving DecidableEq, Repr

/-- `POST /assign-job`: validation, sanitization, user lookup, job creation and
one enqueue per page with dedupe key `{jobId}:page:{index}`. `findUser` is the
`User.findOne({ email })` lookup (lowercased email to user id), `adminUserId`
is `req.user._id`, `freshId` the Mongo id assigned by `DocumentJobs.create`.
The created record carries `pageArtifacts := []`; modelled from the spec: the
`DocumentJobs` schema (`src/models/DocumentJobs.js` is not in the source tree)
defaults the artifact set to empty and `create` passes no `pageArtifacts`. -/
def assignJob (body : AssignBody) (findUser : String → Option String)
    (adminUserId freshId : String) : AssignResult :=
  if emailTruthy body.email && quotaTruthy body.assignedQuota &&
      layoutTruthy body.layoutPages then
    match body.layoutPages with
    | .arr pages =>
      if pages.length = 0 then .badRequest "layoutPages must be a non-empty array"
      else
        let pagesNum := body.assignedQuota.getD 0
        if pagesNum ≤ 0 then .badRequest "assignedQuota must be a positive number"
        else
          let emailLower := jsToLower (body.email.getD "")
          let sanitized := pages.map sanitizePage
          match findUser emailLower with
          | none => .notFound "User with this email not found"
          | some uid =>
            let job : Job :=
              { id := freshId, email := emailLower, status := .processing,
                stage := .rendering, totalPages := sanitized.length,
                completedPages := 0, pageArtifacts := [], outputDocumentId := none,
                assignedQuota := pagesNum, userId := some uid,
                createdBy := adminUserId }
            let tasks := sanitized.enum.map fun ip =>
              ({ dedupeKey := some (freshId ++ ":page:" ++ toString ip.1),
                 data := { email := emailLower, assignedQuota := pagesNum,
                           pageLayout := ip.2, pageIndex := ip.1,
                           adminUserId := adminUserId, jobId := freshId } } :
                QueueEntry RenderTaskData)
            .created job tasks freshId
    | _ => .badRequest "layoutPages must be a non-empty array"
  else .badRequest "email, assignedQuota and layoutPages are required"

/-! ## Documents, access grants, and the handlers of `src/routes/docs.js` -/

/-- A `Document` record (uploaded documents and generated output documents). -/
structure DocumentRec where
  id : String
  title : String
  fileKey : String
  fileUrl : String
  createdBy : String
  documentType : String
deriving DecidableEq, Repr

/-- A `DocumentAccess` grant: quota-limited access of one user to one document,
optionally carrying an opaque `sessionToken`. -/
structure AccessGrant where
  userId : String
  documentId : String
  assignedQuota : Int
  usedPrints : Int
  sessionToken : Option String
deriving DecidableEq, Repr

/-- HTTP-level results of the docs routes, keyed by status code and message. -/
inductive DocsResult
  | badRequest (msg : String)
  | forbidden (msg : String)
  | notFound (msg : String)
  | serverError (msg : String)
  | printOk (fileUrl : String) (remainingPrints maxPrints : Int)
  | renderOk (contentType : String) (bodyKey : String)
deriving DecidableEq, Repr

set_option linter.unusedVariables false in
/-- `POST /secure-print` (`src/routes/docs.js` lines 421-469): looks the grant up
by `sessionToken` alone, checks the remaining quota, increments `usedPrints` and
saves, then loads the linked document and returns a presigned URL. `reqUserId`
is the authenticated caller (`req.user._id`); the handler never compares it to
the grant's `userId`. `getDoc` is the populated `documentId` lookup, `presign`
the `getSignedUrl` call. Returns the response and the grant store after the
handler. -/
def securePrint (reqUserId : String) (sessionToken : Option String)
    (grants : List AccessGrant) (getDoc : String → Option DocumentRec)
    (bucket : Option String) (presign : String → String) :
    DocsResult × List AccessGrant :=
  match sessionToken with
  | none => (.badRequest "sessionToken is required", grants)
  | some tok =>
    if tok = "" then (.badRequest "sessionToken is required", grants)
    else
      match grants.find? (fun g => g.sessionToken = some tok) with
      | none => (.notFound "Access not found", grants)
      | some access =>
        if access.assignedQuota - access.usedPrints ≤ 0 then
          (.badRequest "Print limit exceeded", grants)
        else
          let access1 : AccessGrant := { access with usedPrints := access.usedPrints + 1 }
          let grants1 := grants.map fun g => if g.sessionToken = some tok then access1 else g
          match getDoc access.documentId with
          | none => (.notFound "Document not found", grants1)
          | some doc =>
            match bucket with
            | none => (.serverError "S3 not configured", grants1)
            | some _ =>
              (.printOk (presign doc.fileKey)
                (access1.assignedQuota - access1.usedPrints) access1.assignedQuota, grants1)

/-- `POST /secure-render` (`src/routes/docs.js` lines 369-418): same token
lookup, but rejects a caller whose id differs from the grant's `userId` with
403 before touching the document; on success streams the bytes
(`fetchBody`) with an svg/pdf content type. -/
def secureRender (reqUserId : String) (sessionToken : Option String)
    (grants : List AccessGrant) (getDoc : String → Option DocumentRec)
    (bucket : Option String) (fetchBody : String → String) : DocsResult :=
  match sessionToken with
  | none => .badRequest "sessionToken is required"
  | some tok =>
    if tok = "" then .badRequest "sessionToken is required"
    else
      match grants.find? (fun g => g.sessionToken = some tok) with
      | none => .notFound "Access not found"
      | some access =>
        if access.userId ≠ reqUserId then .forbidden "Not authorized for this document"
        else
          match getDoc access.documentId with
          | none => .notFound "Document not found"
          | some doc =>
            match bucket with
            | none => .serverError "S3 not configured"
            | some _ =>
              .renderOk
                (if jsEndsWith (jsToLower doc.title) ".svg" then "image/svg+xml"
                 else "application/pdf")
                (fetchBody doc.fileKey)

/-! ## The reconciler (self-heal block of `GET /assigned`) -/

/-- The self-heal condition on one job (`src/routes/docs.js` lines 505-512):
`job.totalPages > 0 && job.completedPages >= job.totalPages &&
!job.outputDocumentId && job.status !== 'completed' && job.stage !== 'merging'`. -/
def needsHeal (j : Job) : Prop :=
  0 < j.totalPages ∧ j.totalPages ≤ j.completedPages ∧ j.outputDocumentId = none ∧
    j.status ≠ .completed ∧ j.stage ≠ .merging

instance : DecidablePred needsHeal := fun j => by unfold needsHeal; infer_instance

/-- The update applied to a healed job: `job.stage = 'merging';
job.status = 'processing'; await job.save()`. -/
def healJob (j : Job) : Job := { j with stage := .merging, status := .processing }

/-- The merge-task payload the reconciler enqueues:
`{ jobId: job._id.toString(), email: job.email, assignedQuota: job.assignedQuota,
adminUserId: job.createdBy }` (no dedupe key: `mergePdfQueue.add` is called
without options). -/
def reconcilerTask (j : Job) : MergeTaskData :=
  { jobId := j.id, email := j.email, assignedQuota := j.assignedQuota,
    adminUserId := j.createdBy }

/-- The self-heal pass over the listed user's jobs: for each job meeting
`needsHeal`, enqueue one merge task and advance it to merging; leave the rest
untouched. Returns the updated job records and the enqueued merge tasks. -/
def selfHeal (jobs : List Job) : List Job × List MergeTaskData :=
  match jobs with
  | [] => ([], [])
  | j :: rest =>
    let r := selfHeal rest
    if needsHeal j then (healJob j :: r.1, reconcilerTask j :: r.2)
    else (j :: r.1, r.2)

/-! ## Merge-worker completion block -/

/-- Everything the merge worker's completion block writes: the created output
`Document`, the upserted `DocumentAccess` grant, and the terminal job record. -/
structure MergeCompletion where
  doc : DocumentRec
  access : AccessGrant
  job : Job
deriving DecidableEq, Repr

/-- The completion block of the merge worker in `src/unnamed/part_000` lines
256-290, after the merged PDF was uploaded as (`key`, `url`): `Document.create`,
`DocumentAccess.findOneAndUpdate({userId, documentId}, {..., assignedQuota,
usedPrints: 0}, {upsert: true, new: true})`, the session-token backfill
(`if (!access.sessionToken) access.sessionToken = crypto.randomBytes(32)...`),
and the terminal job update. `uid` is the resolved `user._id`, `existing` the
grant the upsert matched (`none` means insert), `docId` the id Mongo assigns the
new document, `freshToken` the generated random token. -/
def mergeCompleteCluster (jobDoc : Job) (uid : String) (task : MergeTaskData)
    (docId key url : String) (existing : Option AccessGrant) (freshToken : String) :
    MergeCompletion :=
  let doc : DocumentRec :=
    { id := docId, title := "Generated Output", fileKey := key, fileUrl := url,
      createdBy := task.adminUserId, documentType := "generated-output" }
  let base : AccessGrant :=
    match existing with
    | some g =>
      { g with
        userId := uid
        documentId := docId
        assignedQuota := task.assignedQuota
        usedPrints := 0 }
    | none =>
      { userId := uid
        documentId := docId
        assignedQuota := task.assignedQuota
        usedPrints := 0
        sessionToken := none }
  let access :=
    if base.sessionToken = none then { base with sessionToken := some freshToken }
    else base
  { doc := doc
    access := access
    job := { jobDoc with
      status := .completed
      stage := .completed
      outputDocumentId := some docId
      userId := some uid } }

/-- The completion block of the merge worker in `src/workers/pdfWorker.js` lines
185-207: `Document.create`, then
`DocumentAccess.updateOne({userId, documentId}, {userId, documentId,
assignedQuota, usedPrints: 0}, {upsert: true})`, then the terminal job update.
This variant contains no session-token assignment at all. -/
def mergeCompleteMain (jobDoc : Job) (uid : String) (task : MergeTaskData)
    (docId key url : String) (existing : Option AccessGrant) : MergeCompletion :=
  let doc : DocumentRec :=
    { id := docId, title := "Generated Output", fileKey := key, fileUrl := url,
      createdBy := task.adminUserId, documentType := "generated-output" }
  let access : AccessGrant :=
    match existing with
    | some g =>
      { g with
        userId := uid
        documentId := docId
        assignedQuota := task.assignedQuota
        usedPrints := 0 }
    | none =>
      { userId := uid
        documentId := docId
        assignedQuota := task.assignedQuota
        usedPrints := 0
        sessionToken := none }
  { doc := doc
    access := access
    job := { jobDoc with
      status := .completed
      stage := .completed
      outputDocumentId := some docId
      userId := some uid } }

/-! ## Render-task asset resolution (`resolveS3ImagesToDataUrls`) -/

/-- A page as the resolvers receive it: its `items` array. (Both resolver
variants iterate `page.items` as an array.) -/
structure RenderPage where
  items : List LayoutItem
deriving DecidableEq, Repr

/-- The referenced S3 key of an item, when `item.src` is a string starting with
`"s3://"`; the key is `item.src.slice(5)`. -/
def s3KeyOf (it : LayoutItem) : Option String :=
  match it.src with
  | some s => if jsStartsWith s "s3://" then some (s.drop 5) else none
  | none => none

/-- First pass of `resolveS3ImagesToDataUrls`: the set of distinct referenced
keys (`keysToFetch`, a JS `Set`). Duplicates collapse; the fetches are keyed, so
the iteration order of the set is immaterial. -/
def keysToFetch (pages : List RenderPage) : List String :=
  (pages.flatMap (fun p => p.items.filterMap s3KeyOf)).dedup

/-- The cache after the parallel fetch loop: one entry per successfully fetched
key (`cache.set(key, dataUrl)` inside `try`; a failed fetch is caught, logged,
and leaves no entry). `fetch` returns `none` exactly when `s3.send` throws. -/
def buildCache (fetch : String → Option String) (keys : List String) :
    List (String × String) :=
  keys.filterMap fun k => (fetch k).map fun d => (k, d)

/-- `cache.get(key)`: the data URL when present, else `undefined`. -/
def cacheGet (c : List (String × String)) (k : String) : Option String :=
  (c.find? fun e => e.1 = k).map fun e => e.2

/-- `resolveS3ImagesToDataUrls` of `src/workers/pdfWorker.js` lines 40-85:
rebuild every page, replacing each s3 reference by
`cache.get(key) || item.src` — so the original reference survives a failed
fetch; other items are passed through unchanged. -/
def resolveS3Images (fetch : String → Option String) (pages : List RenderPage) :
    List RenderPage :=
  let cache := buildCache fetch (keysToFetch pages)
  pages.map fun p =>
    { p with items := p.items.map fun it =>
        match it.src with
        | some s =>
          if jsStartsWith s "s3://" then
            { it with src := some ((cacheGet cache (s.drop 5)).getD s) }
          else it
        | none => it }

/-- The second `resolveS3ImagesToDataUrls` variant (`src/unnamed/part_000` lines
372-419): the replacement is `src: cache.get(key)` with no fallback, so a failed
fetch leaves `src` undefined instead of the original reference. -/
def resolveS3ImagesVariant2 (fetch : String → Option String)
    (pages : List RenderPage) : List RenderPage :=
  let cache := buildCache fetch (keysToFetch pages)
  pages.map fun p =>
    { p with items := p.items.map fun it =>
        match it.src with
        | some s =>
          if jsStartsWith s "s3://" then { it with src := cacheGet cache (s.drop 5) }
          else it
        | none => it }

/-! ## Render-worker prologue (job and user lookup) -/

/-- Outcome of the render handler prologue: the task is acknowledged and
dropped (`return`), fails (`throw`), or proceeds to rendering. -/
inductive RenderOutcome
  | ack
  | err (msg : String)
  | proceed
deriving DecidableEq, Repr

/-- The render handler prologue of `src/workers/pdfWorker.js` lines 104-112:
`if (!jobDoc) return;` then mark processing/rendering and save, then
`if (!user) throw new Error(...)` — this variant throws without marking the job
failed. Returns the outcome and the job's stored state afterwards. -/
def renderPrologueMain (jobDoc : Option Job) (user : Option String)
    (email : String) : RenderOutcome × Option Job :=
  match jobDoc with
  | none => (.ack, none)
  | some j =>
    let j1 : Job := { j with status := .processing, stage := .rendering }
    match user with
    | none => (.err ("User not found: " ++ email), some j1)
    | some _ => (.proceed, some j1)

/-- The render handler prologue of `src/unnamed/part_000` lines 125-141:
missing job record is dropped; a missing user marks the job
`status = 'failed', stage = 'failed'`, saves it, and throws. -/
def renderPrologueCluster (jobDoc : Option Job) (user : Option String)
    (email : String) : RenderOutcome × Option Job :=
  match jobDoc with
  | none => (.ack, none)
  | some j =>
    let j1 : Job := { j with status := .processing, stage := .rendering }
    match user with
    | none =>
      (.err ("User with email " ++ email ++ " not found"),
       some { j1 with status := .failed, stage := .failed })
    | some _ => (.proceed, some j1)

/-! ## Concrete inputs used by counterexamples and witnesses -/

/-- A one-page job as created by `POST /assign-job`. -/
def jobC1 : Job :=
  { id := "job1", email := "owner@example.com", status := .processing,
    stage := .rendering, totalPages := 1, completedPages := 0, pageArtifacts := [],
    outputDocumentId := none, assignedQuota := 3, userId := none,
    createdBy := "admin1" }

/-- The single render task of `jobC1`, successfully executed. -/
def execC1 : RenderExec :=
  { jobId := "job1", pageIndex := 0, email := "owner@example.com",
    assignedQuota := 3, adminUserId := "admin1", uid := "u1", artifactKey := "k0" }

/-- `jobC1` with an empty merge channel. -/
def stateC1 : PipelineState := { job := jobC1, mergeQueue := [] }

/-- A two-page job used as a witness input. -/
def jobW : Job :=
  { id := "job2", email := "owner@example.com", status := .processing,
    stage := .rendering, totalPages := 2, completedPages := 0, pageArtifacts := [],
    outputDocumentId := none, assignedQuota := 5, userId := none,
    createdBy := "admin1" }

/-- Render execution of page `i` of `jobW`. -/
def execW (i : Nat) : RenderExec :=
  { jobId := "job2", pageIndex := i, email := "owner@example.com",
    assignedQuota := 5, adminUserId := "admin1", uid := "u1",
    artifactKey := "pk" ++ toString i }

/-- A job whose pages all rendered but whose merge trigger was lost
(`completedPages == totalPages == 3`, `stage = rendering`, no output document). -/
def jobHealEx : Job :=
  { id := "job3", email := "owner@example.com", status := .processing,
    stage := .rendering, totalPages := 3, completedPages := 3,
    pageArtifacts := [{ key := "a0", pageIndex := 0 }, { key := "a1", pageIndex := 1 },
      { key := "a2", pageIndex := 2 }],
    outputDocumentId := none, assignedQuota := 3, userId := some "u1",
    createdBy := "admin1" }

/-- A finished job the reconciler must leave unchanged. -/
def jobDoneEx : Job :=
  { id := "job4", email := "owner@example.com", status := .completed,
    stage := .completed, totalPages := 2, completedPages := 2,
    pageArtifacts := [], outputDocumentId := some "doc4", assignedQuota := 2,
    userId := some "u1", createdBy := "admin1" }

/-- The generated output document `doc1`. -/
def docEx : DocumentRec :=
  { id := "doc1", title := "Generated Output", fileKey := "fk1", fileUrl := "fu1",
    createdBy := "admin1", documentType := "generated-output" }

/-- A document store holding `doc1` only. -/
def getDocEx : String → Option DocumentRec := fun d =>
  if d = "doc1" then some docEx else none

/-- Grant of user `u1` over `doc1`, one of three prints used, token `tokA`. -/
def grantEx : AccessGrant :=
  { userId := "u1", documentId := "doc1", assignedQuota := 3, usedPrints := 1,
    sessionToken := some "tokA" }

/-- Grant of user `u1` over `doc1` with its quota exhausted, token `tokB`. -/
def grantSpentEx : AccessGrant :=
  { userId := "u1", documentId := "doc1", assignedQuota := 3, usedPrints := 3,
    sessionToken := some "tokB" }

/-- Grant of user `u1` whose `documentId` dangles (no such document), token `tokC`. -/
def grantDanglingEx : AccessGrant :=
  { userId := "u1", documentId := "doc404", assignedQuota := 2, usedPrints := 0,
    sessionToken := some "tokC" }

/-- A two-page layout body for `POST /assign-job`. -/
def bodyEx : AssignBody :=
  { email := some "Owner@Example.com", assignedQuota := some 2,
    layoutPages := .arr
      [{ items := some [{ src := some "s3://img0", meta := "m0" }] },
       { items := some [{ src := some "s3://img1", meta := "m1" }] }] }

/-- A user directory holding `owner@example.com` only. -/
def findUserEx : String → Option String := fun e =>
  if e = "owner@example.com" then some "u1" else none

/-- A concrete presigner. -/
def presignEx : String → String := fun k => "https://signed/" ++ k

/-- A concrete body fetcher. -/
def fetchBodyEx : String → String := fun k => "bytes:" ++ k

/-- A fully rendered job being merged. -/
def jobMergeEx : Job :=
  { id := "job5", email := "owner@example.com", status := .processing,
    stage := .merging, totalPages := 2, completedPages := 2,
    pageArtifacts := [{ key := "p1", pageIndex := 1 }, { key := "p0", pageIndex := 0 }],
    outputDocumentId := none, assignedQuota := 4, userId := some "u1",
    createdBy := "admin1" }

/-- The merge task of `jobMergeEx`. -/
def mergeTaskEx : MergeTaskData :=
  { jobId := "job5", email := "owner@example.com", assignedQuota := 4,
    adminUserId := "admin1" }

/-- A fetcher that fails on `k1` and succeeds on `k2`. -/
def fetchC6 : String → Option String := fun k =>
  if k = "k2" then some "data:image/png;base64,AA" else none

/-- One page referencing the two blob keys `k1` and `k2`. -/
def pagesC6 : List RenderPage :=
  [{ items := [{ src := some "s3://k1", meta := "img1" },
               { src := some "s3://k2", meta := "img2" }] }]

/-- A job record as the render prologue finds it. -/
def jobC7 : Job :=
  { id := "job7", email := "owner@example.com", status := .pending,
    stage := .queued, totalPages := 1, completedPages := 0, pageArtifacts := [],
    outputDocumentId := none, assignedQuota := 1, userId := none,
    createdBy := "admin1" }

/-! # Theorems -/

/-! ## Sorting lemmas (merge worker) -/

theorem sortArtifacts_perm (l : List PageArtifact) : (sortArtifacts l).Perm l :=
  List.perm_insertionSort _ l

theorem sortArtifacts_sorted (l : List PageArtifact) :
    (sortArtifacts l).Sorted artifactLE :=
  List.sorted_insertionSort _ l

/-- Two lists of artifacts that are permutations of each other, both sorted by
`pageIndex`, and whose page indexes are duplicate-free, are equal. -/
theorem sorted_perm_eq_of_nodup_pageIndex :
    ∀ {l m : List PageArtifact}, l.Perm m → l.Sorted artifactLE → m.Sorted artifactLE →
      (l.map PageArtifact.pageIndex).Nodup → l = m := by
  intro l
  induction l with
  | nil =>
    intro m p _ _ _
    exact (p.nil_eq).symm ▸ rfl
  | cons a t ih =>
    intro m p hl hm hnd
    cases m with
    | nil => exact absurd p.symm.nil_eq (by simp)
    | cons b s =>
      have hal := List.sorted_cons.mp hl
      have hbm := List.sorted_cons.mp hm
      have hbmem : b ∈ a :: t := p.mem_iff.mpr (by simp)
      have hamem : a ∈ b :: s := p.mem_iff.mp (by simp)
      have hab : a.pageIndex ≤ b.pageIndex := by
        rcases List.mem_cons.mp hbmem with h | h
        · exact h ▸ le_rfl
        · exact hal.1 b h
      have hba : b.pageIndex ≤ a.pageIndex := by
        rcases List.mem_cons.mp hamem with h | h
        · exact h ▸ le_rfl
        · exact hbm.1 a h
      have hidx : a.pageIndex = b.pageIndex := Nat.le_antisymm hab hba
      rw [List.map_cons] at hnd
      have hndc := List.nodup_cons.mp hnd
      have hba' : b = a := by
        rcases List.mem_cons.mp hbmem with h | h
        · exact h
        · exfalso
          apply hndc.1
          rw [hidx]
          exact List.mem_map_of_mem PageArtifact.pageIndex h
      subst hba'
      have ptail : t.Perm s := p.cons_inv
      have : t = s := ih ptail hal.2 hbm.2 hndc.2
      rw [this]

/-- C2: the merge worker sorts `pageArtifacts` ascending by `pageIndex` before
concatenation, so for every arrival permutation of the page artifacts the final
assembled document's page order equals the original page-index order. -/
theorem mergeOutput_restores_page_order
    (fetchBlob : String → String) (original arrived : List PageArtifact)
    (hperm : arrived.Perm original)
    (hsorted : original.Sorted artifactLE)
    (hnd : (original.map PageArtifact.pageIndex).Nodup) :
    mergeWorkerOutput fetchBlob arrived = original.map (fun a => fetchBlob a.key) := by
  have h1 : (sortArtifacts arrived).Perm original :=
    (sortArtifacts_perm arrived).trans hperm
  have hnd' : ((sortArtifacts arrived).map PageArtifact.pageIndex).Nodup :=
    ((h1.map PageArtifact.pageIndex).nodup_iff).mpr hnd
  have heq : sortArtifacts arrived = original :=
    sorted_perm_eq_of_nodup_pageIndex h1 (sortArtifacts_sorted arrived) hsorted hnd'
  simp [mergeWorkerOutput, heq]

/-- C2 witness: artifacts recorded in completion order `A(idx=2), B(idx=0),
C(idx=1)` merge to output page order `B, C, A`. -/
theorem mergeOutput_restores_page_order_witness :
    mergeWorkerOutput id
      [{ key := "A", pageIndex := 2 }, { key := "B", pageIndex := 0 },
       { key := "C", pageIndex := 1 }] = ["B", "C", "A"] :=
  mergeOutput_restores_page_order id
    [{ key := "B", pageIndex := 0 }, { key := "C", pageIndex := 1 },
     { key := "A", pageIndex := 2 }]
    [{ key := "A", pageIndex := 2 }, { key := "B", pageIndex := 0 },
     { key := "C", pageIndex := 1 }]
    (by decide) (by decide) (by decide)

/-! ## Render-worker counter and merge-enqueue lemmas -/

theorem renderUpdated_completedPages (st : PipelineState) (t : RenderExec) :
    (renderUpdated st t).completedPages = st.job.completedPages + 1 := rfl

theorem renderUpdated_totalPages (st : PipelineState) (t : RenderExec) :
    (renderUpdated st t).totalPages = st.job.totalPages := rfl

theorem renderSuccessStep_completedPages (st : PipelineState) (t : RenderExec) :
    (renderSuccessStep st t).job.completedPages = st.job.completedPages + 1 := by
  rw [renderSuccessStep]
  split <;> rfl

theorem renderSuccessStep_totalPages (st : PipelineState) (t : RenderExec) :
    (renderSuccessStep st t).job.totalPages = st.job.totalPages := by
  rw [renderSuccessStep]
  split <;> rfl

theorem runRender_completedPages (execs : List RenderExec) :
    ∀ st : PipelineState,
      (runRender st execs).job.completedPages = st.job.completedPages + execs.length := by
  induction execs with
  | nil => intro st; rfl
  | cons t rest ih =>
    intro st
    show (runRender (renderSuccessStep st t) rest).job.completedPages = _
    rw [ih, renderSuccessStep_completedPages, List.length_cons]
    omega

theorem runRender_totalPages (execs : List RenderExec) :
    ∀ st : PipelineState, (runRender st execs).job.totalPages = st.job.totalPages := by
  induction execs with
  | nil => intro st; rfl
  | cons t rest ih =>
    intro st
    show (runRender (renderSuccessStep st t) rest).job.totalPages = _
    rw [ih, renderSuccessStep_totalPages]

theorem renderSuccessStep_mergeQueue_last (st : PipelineState) (t : RenderExec)
    (h : st.job.totalPages ≤ st.job.completedPages + 1) (h0 : 0 < st.job.totalPages) :
    (renderSuccessStep st t).mergeQueue.length = st.mergeQueue.length + 1 := by
  rw [renderSuccessStep,
    if_pos (by exact ⟨by rw [renderUpdated_completedPages, renderUpdated_totalPages]; omega,
      by rw [renderUpdated_totalPages]; omega⟩)]
  simp [queueAdd, mergeAddDedupeKey]

theorem renderSuccessStep_mergeQueue_notLast (st : PipelineState) (t : RenderExec)
    (h : st.job.completedPages + 1 < st.job.totalPages) :
    (renderSuccessStep st t).mergeQueue = st.mergeQueue := by
  rw [renderSuccessStep, if_neg]
  intro hcond
  rw [renderUpdated_completedPages, renderUpdated_totalPages] at hcond
  omega

theorem runRender_mergeQueue_length :
    ∀ (execs : List RenderExec) (st : PipelineState),
      st.job.completedPages + execs.length = st.job.totalPages →
      st.job.completedPages < st.job.totalPages →
      (runRender st execs).mergeQueue.length = st.mergeQueue.length + 1
  | [], st, h1, h2 => by simp at h1; omega
  | t :: rest, st, h1, h2 => by
    have hstep : runRender st (t :: rest) = runRender (renderSuccessStep st t) rest := rfl
    by_cases hlast : st.job.completedPages + 1 = st.job.totalPages
    · have hrest : rest = [] := by
        have : rest.length = 0 := by simp [List.length_cons] at h1; omega
        exact List.length_eq_zero.mp this
      subst hrest
      show (renderSuccessStep st t).mergeQueue.length = st.mergeQueue.length + 1
      exact renderSuccessStep_mergeQueue_last st t (by omega) (by omega)
    · have hlt : st.job.completedPages + 1 < st.job.totalPages := by
        simp [List.length_cons] at h1; omega
      have h1' : (renderSuccessStep st t).job.completedPages + rest.length =
          (renderSuccessStep st t).job.totalPages := by
        rw [renderSuccessStep_completedPages, renderSuccessStep_totalPages]
        simp [List.length_cons] at h1; omega
      have h2' : (renderSuccessStep st t).job.completedPages <
          (renderSuccessStep st t).job.totalPages := by
        rw [renderSuccessStep_completedPages, renderSuccessStep_totalPages]; omega
      rw [hstep, runRender_mergeQueue_length rest _ h1' h2',
        renderSuccessStep_mergeQueue_notLast st t hlt]

/-- C1 (amended): starting from a fresh job with `totalPages = N > 0` and an
empty merge channel, after all `N` render tasks succeed exactly once
`completedPages = N` and exactly one merge task is in the merge channel; but the
merge enqueue passes no dedupe key at all (no `{jobId}:merge`), so the single
task is due to the strict completion check under exactly-once delivery, not to
queue-level duplicate suppression. -/
theorem render_exactlyOnce_unique_merge
    (st : PipelineState) (execs : List RenderExec)
    (hc : st.job.completedPages = 0)
    (hn : execs.length = st.job.totalPages)
    (hpos : 0 < st.job.totalPages)
    (hq : st.mergeQueue = []) :
    (runRender st execs).job.completedPages = st.job.totalPages ∧
    (runRender st execs).mergeQueue.length = 1 ∧
    mergeAddDedupeKey = none := by
  refine ⟨?_, ?_, rfl⟩
  · rw [runRender_completedPages, hc, hn]
    omega
  · have h := runRender_mergeQueue_length execs st (by omega) (by omega)
    rw [hq] at h
    simpa using h

/-- C1 witness: a two-page job whose two render tasks each succeed once ends
with `completedPages = 2` and a single merge task enqueued. -/
theorem render_exactlyOnce_unique_merge_witness :
    (runRender { job := jobW, mergeQueue := [] } [execW 0, execW 1]).job.completedPages = 2 ∧
    (runRender { job := jobW, mergeQueue := [] } [execW 0, execW 1]).mergeQueue.length = 1 ∧
    mergeAddDedupeKey = none :=
  render_exactlyOnce_unique_merge { job := jobW, mergeQueue := [] } [execW 0, execW 1]
    rfl rfl (by decide) rfl

/-- C1 counterexample: `jobC1` has `totalPages = 1`; its single render task
succeeds, is redelivered, and succeeds again. Both successful executions pass
the `completedPages >= totalPages` check and enqueue a merge task without any
dedupe key, so the merge channel ends up holding two merge tasks for the job —
no enqueue carried a `{jobId}:merge` key and the duplicate was not suppressed. -/
theorem renderRedelivery_duplicates_mergeTask :
    (runRender stateC1 [execC1, execC1]).mergeQueue =
      [{ dedupeKey := none, data := mergeTaskOf execC1 },
       { dedupeKey := none, data := mergeTaskOf execC1 }] ∧
    ¬ (runRender stateC1 [execC1, execC1]).mergeQueue.length = 1 :=
  ⟨rfl, by decide⟩

/-- C3 (amended): `completedPages` equals its starting value plus the number of
successful render executions — every successful execution, including a
redelivered duplicate, increments it by exactly one — so it is non-negative and
non-decreasing, and as long as at most `totalPages - completedPages` further
executions succeed (exactly-once delivery) every intermediate value stays
`≤ totalPages`. -/
theorem completedPages_counts_renderExecs
    (st : PipelineState) (p q : List RenderExec)
    (hbound : st.job.completedPages + (p ++ q).length ≤ st.job.totalPages) :
    (runRender st (p ++ q)).job.completedPages
        = st.job.completedPages + (p ++ q).length ∧
    (runRender st p).job.completedPages ≤ (runRender st (p ++ q)).job.completedPages ∧
    (runRender st p).job.completedPages ≤ st.job.totalPages := by
  rw [runRender_completedPages, runRender_completedPages]
  rw [List.length_append] at hbound ⊢
  omega

/-- C3 witness: with a one-page job and its single render execution, the counter
reaches 1 = totalPages and every prefix respects the bound. -/
theorem completedPages_counts_renderExecs_witness :
    (runRender stateC1 ([execC1] ++ [])).job.completedPages = 0 + ([execC1] ++ []).length ∧
    (runRender stateC1 [execC1]).job.completedPages ≤
      (runRender stateC1 ([execC1] ++ [])).job.completedPages ∧
    (runRender stateC1 [execC1]).job.completedPages ≤ 1 :=
  completedPages_counts_renderExecs stateC1 [execC1] [] (by decide)

/-- C3 counterexample: after the single render task of `jobC1` succeeds and is
then redelivered and succeeds again, `completedPages = 2 > totalPages = 1`: the
invariant `completedPages ≤ totalPages` does not survive duplicate delivery
because every successful execution unconditionally runs `$inc: { completedPages: 1 }`. -/
theorem redelivery_exceeds_totalPages :
    (runRender stateC1 [execC1, execC1]).job.completedPages = 2 ∧
    ¬ (runRender stateC1 [execC1, execC1]).job.completedPages ≤
        (runRender stateC1 [execC1, execC1]).job.totalPages := by
  decide

/-! ## Job creation -/

/-- C4: `POST /assign-job` rejects an empty or non-array (or absent)
`layoutPages`; and with a truthy email, a positive quota, a non-empty page
array and a known user it creates exactly one job record with
`totalPages = pages.length`, `completedPages = 0`, an empty artifact set,
`status = processing`, `stage = rendering`, enqueues one render task per page
index with dedupe key `{jobId}:page:{index}`, and returns the job id
synchronously. -/
theorem assignJob_spec (body : AssignBody) (findUser : String → Option String)
    (adminUserId freshId : String) :
    ((body.layoutPages = .arr [] ∨ body.layoutPages = .nonArray ∨
        body.layoutPages = .missing) →
      ∃ msg, assignJob body findUser adminUserId freshId = .badRequest msg) ∧
    (∀ (e : String) (q : Int) (pages : List LayoutPage) (uid : String),
      body.email = some e → e ≠ "" → body.assignedQuota = some q → 0 < q →
      body.layoutPages = .arr pages → pages ≠ [] →
      findUser (jsToLower e) = some uid →
      ∃ (job : Job) (tasks : List (QueueEntry RenderTaskData)),
        assignJob body findUser adminUserId freshId = .created job tasks freshId ∧
        job.id = freshId ∧ job.totalPages = pages.length ∧ job.completedPages = 0 ∧
        job.pageArtifacts = [] ∧ job.status = .processing ∧ job.stage = .rendering ∧
        tasks.length = pages.length ∧
        ∀ (i : Nat) (h : i < tasks.length),
          (tasks.get ⟨i, h⟩).dedupeKey = some (freshId ++ ":page:" ++ toString i) ∧
          (tasks.get ⟨i, h⟩).data.jobId = freshId ∧
          (tasks.get ⟨i, h⟩).data.pageIndex = i) := by
  constructor
  · intro hl
    cases hcond : (emailTruthy body.email && quotaTruthy body.assignedQuota &&
        layoutTruthy body.layoutPages)
    · exact ⟨"email, assignedQuota and layoutPages are required",
        by simp [assignJob, hcond]⟩
    · rcases hl with h | h | h
      · refine ⟨"layoutPages must be a non-empty array", ?_⟩
        rw [h] at hcond
        simp only [Bool.and_eq_true] at hcond
        simp [assignJob, h]
        exact ⟨hcond.1.1, hcond.1.2, hcond.2⟩
      · refine ⟨"layoutPages must be a non-empty array", ?_⟩
        rw [h] at hcond
        simp only [Bool.and_eq_true] at hcond
        simp [assignJob, h]
        exact ⟨hcond.1.1, hcond.1.2, hcond.2⟩
      · rw [h] at hcond
        simp [layoutTruthy] at hcond
  · intro e q pages uid he hene hq hqpos hl hpne hu
    have hce : emailTruthy (some e) = true := by simp [emailTruthy, hene]
    have hcq : quotaTruthy (some q) = true := by
      simp [quotaTruthy]
      omega
    have hlen0 : ¬ pages.length = 0 := fun h0 => hpne (List.length_eq_zero.mp h0)
    have hqle : ¬ q ≤ 0 := by omega
    refine ⟨{ id := freshId, email := jsToLower e, status := .processing,
              stage := .rendering, totalPages := (pages.map sanitizePage).length,
              completedPages := 0, pageArtifacts := [], outputDocumentId := none,
              assignedQuota := q, userId := some uid, createdBy := adminUserId },
            (pages.map sanitizePage).enum.map (fun ip =>
              ({ dedupeKey := some (freshId ++ ":page:" ++ toString ip.1),
                 data := { email := jsToLower e, assignedQuota := q,
                           pageLayout := ip.2, pageIndex := ip.1,
                           adminUserId := adminUserId, jobId := freshId } } :
                QueueEntry RenderTaskData)),
            ?_, rfl, by simp, rfl, rfl, rfl, rfl, by simp, ?_⟩
    · simp [assignJob, he, hq, hl, hce, hcq, layoutTruthy, hlen0, hqle, hu]
    · intro i hi
      refine ⟨?_, ?_, ?_⟩ <;>
        simp [List.get_eq_getElem, List.getElem_map, List.getElem_enum]

/-- C4 witness: a two-page body for `Owner@Example.com` yields one created job
with the stated fields and two render tasks keyed `jobF:page:0`, `jobF:page:1`. -/
theorem assignJob_spec_witness :
    ∃ (job : Job) (tasks : List (QueueEntry RenderTaskData)),
      assignJob bodyEx findUserEx "admin1" "jobF" = .created job tasks "jobF" ∧
      job.id = "jobF" ∧ job.totalPages = 2 ∧ job.completedPages = 0 ∧
      job.pageArtifacts = [] ∧ job.status = .processing ∧ job.stage = .rendering ∧
      tasks.length = 2 ∧
      ∀ (i : Nat) (h : i < tasks.length),
        (tasks.get ⟨i, h⟩).dedupeKey = some ("jobF" ++ ":page:" ++ toString i) ∧
        (tasks.get ⟨i, h⟩).data.jobId = "jobF" ∧
        (tasks.get ⟨i, h⟩).data.pageIndex = i :=
  (assignJob_spec bodyEx findUserEx "admin1" "jobF").2 "Owner@Example.com" 2
    [{ items := some [{ src := some "s3://img0", meta := "m0" }] },
     { items := some [{ src := some "s3://img1", meta := "m1" }] }] "u1"
    rfl (by decide) rfl (by decide) rfl (by decide) (by decide)

/-! ## Reconciler lemmas -/

theorem selfHeal_snd (jobs : List Job) :
    (selfHeal jobs).2 = (jobs.filter (fun j => decide (needsHeal j))).map reconcilerTask := by
  induction jobs with
  | nil => rfl
  | cons j rest ih =>
    by_cases h : needsHeal j <;> simp [selfHeal, h, ih, List.filter_cons]

theorem selfHeal_fst (jobs : List Job) :
    (selfHeal jobs).1 = jobs.map (fun j => if needsHeal j then healJob j else j) := by
  induction jobs with
  | nil => rfl
  | cons j rest ih =>
    by_cases h : needsHeal j <;> simp [selfHeal, h, ih]

/-- C8: the reconciliation pass of `GET /assigned` enqueues exactly one merge
task and advances `stage = merging` (with `status = processing`) for exactly the
listed jobs satisfying `totalPages > 0 ∧ completedPages ≥ totalPages ∧ no output
document ∧ status ≠ completed ∧ stage ≠ merging`; every other listed job is left
unchanged. -/
theorem selfHeal_heals_exactly_ready_jobs (jobs : List Job) :
    (selfHeal jobs).2 = (jobs.filter (fun j => decide (needsHeal j))).map reconcilerTask ∧
    (selfHeal jobs).1 = jobs.map (fun j => if needsHeal j then healJob j else j) ∧
    (∀ j : Job, needsHeal j ↔
      (0 < j.totalPages ∧ j.totalPages ≤ j.completedPages ∧ j.outputDocumentId = none ∧
        j.status ≠ JStatus.completed ∧ j.stage ≠ JStage.merging)) ∧
    (∀ j : Job, (healJob j).stage = JStage.merging ∧ (healJob j).status = JStatus.processing) ∧
    (∀ j : Job, ¬ needsHeal j → (if needsHeal j then healJob j else j) = j) :=
  ⟨selfHeal_snd jobs, selfHeal_fst jobs, fun _ => Iff.rfl, fun _ => ⟨rfl, rfl⟩,
   fun _ h => if_neg h⟩

/-- C8 witness: scanning `[jobHealEx, jobDoneEx]` — a stalled fully-rendered job
and a completed one — produces exactly one merge task (for the stalled job),
advances it to merging, and leaves the completed job unchanged. -/
theorem selfHeal_heals_exactly_ready_jobs_witness :
    (selfHeal [jobHealEx, jobDoneEx]).2 = [reconcilerTask jobHealEx] ∧
    (selfHeal [jobHealEx, jobDoneEx]).1 = [healJob jobHealEx, jobDoneEx] := by
  have h := selfHeal_heals_exactly_ready_jobs [jobHealEx, jobDoneEx]
  refine ⟨?_, ?_⟩
  · rw [h.1]
    decide
  · rw [h.2.1]
    decide

/-! ## Secure-print / secure-render -/

/-- C9: an authenticated caller who is not the grant's owner and presents the
owner's session token: `POST /secure-print` succeeds anyway — the handler never
compares the grant's `userId` with the caller — incrementing the owner's
`usedPrints` and returning a presigned URL, while `POST /secure-render` with the
same inputs rejects the caller with 403. -/
theorem securePrint_ignores_ownership
    (reqUserId tok : String) (grants : List AccessGrant)
    (getDoc : String → Option DocumentRec) (bucket : String)
    (presign fetchBody : String → String) (access : AccessGrant) (doc : DocumentRec)
    (htok : tok ≠ "")
    (hfind : grants.find? (fun g => g.sessionToken = some tok) = some access)
    (hnotowner : access.userId ≠ reqUserId)
    (hquota : 0 < access.assignedQuota - access.usedPrints)
    (hdoc : getDoc access.documentId = some doc) :
    securePrint reqUserId (some tok) grants getDoc (some bucket) presign =
      (.printOk (presign doc.fileKey)
        (access.assignedQuota - (access.usedPrints + 1)) access.assignedQuota,
       grants.map fun g => if g.sessionToken = some tok then
         { access with usedPrints := access.usedPrints + 1 } else g) ∧
    secureRender reqUserId (some tok) grants getDoc (some bucket) fetchBody =
      .forbidden "Not authorized for this document" := by
  have hq' : ¬ access.assignedQuota - access.usedPrints ≤ 0 := by omega
  constructor
  · simp [securePrint, htok, hfind, hq', hdoc]
  · simp [secureRender, htok, hfind, hnotowner]

/-- C9 witness: user `u2` presents `u1`'s token `tokA`: secure-print hands out
the presigned URL for `u1`'s document and burns one of `u1`'s prints; the
secure-render route refuses the same request with 403. -/
theorem securePrint_ignores_ownership_witness :
    securePrint "u2" (some "tokA") [grantEx] getDocEx (some "bkt") presignEx =
      (.printOk (presignEx "fk1") 1 3, [{ grantEx with usedPrints := 2 }]) ∧
    secureRender "u2" (some "tokA") [grantEx] getDocEx (some "bkt") fetchBodyEx =
      .forbidden "Not authorized for this document" :=
  securePrint_ignores_ownership "u2" "tokA" [grantEx] getDocEx "bkt" presignEx
    fetchBodyEx grantEx docEx (by decide) (by decide) (by decide) (by decide) (by decide)

/-- C10: `POST /secure-print` leaves the grant store untouched when it rejects
for exhausted quota, but on the dangling-document path it increments and saves
`usedPrints` before checking the document, so the caller gets 404 while one
print has already been consumed. -/
theorem securePrint_quota_and_dangling_doc
    (reqUserId tok : String) (grants : List AccessGrant)
    (getDoc : String → Option DocumentRec) (bucket : Option String)
    (presign : String → String) (access : AccessGrant)
    (htok : tok ≠ "")
    (hfind : grants.find? (fun g => g.sessionToken = some tok) = some access) :
    (access.assignedQuota - access.usedPrints ≤ 0 →
      securePrint reqUserId (some tok) grants getDoc bucket presign =
        (.badRequest "Print limit exceeded", grants)) ∧
    (0 < access.assignedQuota - access.usedPrints →
      getDoc access.documentId = none →
      securePrint reqUserId (some tok) grants getDoc bucket presign =
        (.notFound "Document not found",
         grants.map fun g => if g.sessionToken = some tok then
           { access with usedPrints := access.usedPrints + 1 } else g)) := by
  constructor
  · intro hle
    simp [securePrint, htok, hfind, hle]
  · intro hgt hdoc
    have hq' : ¬ access.assignedQuota - access.usedPrints ≤ 0 := by omega
    simp [securePrint, htok, hfind, hq', hdoc]

/-! ## Merge-worker completion -/

/-- C5 (amended): the `src/unnamed/part_000` merge worker's completion block
creates exactly one output document holding the merged blob's key, upserts
exactly one grant for the owner carrying the job's `assignedQuota` and
`usedPrints = 0`, backfills an opaque session token exactly when the grant has
none, and marks the job `status = completed, stage = completed` with the output
document recorded; the `src/workers/pdfWorker.js` variant behaves identically
except that it never assigns a session token. -/
theorem mergeCompleteCluster_spec (jobDoc : Job) (uid : String)
    (task : MergeTaskData) (docId key url freshToken : String)
    (existing : Option AccessGrant) :
    (mergeCompleteCluster jobDoc uid task docId key url existing freshToken).doc.fileKey
        = key ∧
    (mergeCompleteCluster jobDoc uid task docId key url existing freshToken).doc.documentType
        = "generated-output" ∧
    (mergeCompleteCluster jobDoc uid task docId key url existing freshToken).doc.id
        = docId ∧
    (mergeCompleteCluster jobDoc uid task docId key url existing freshToken).access.userId
        = uid ∧
    (mergeCompleteCluster jobDoc uid task docId key url existing freshToken).access.documentId
        = docId ∧
    (mergeCompleteCluster jobDoc uid task docId key url existing freshToken).access.assignedQuota
        = task.assignedQuota ∧
    (mergeCompleteCluster jobDoc uid task docId key url existing freshToken).access.usedPrints
        = 0 ∧
    (mergeCompleteCluster jobDoc uid task docId key url existing freshToken).access.sessionToken
        = some ((existing.bind AccessGrant.sessionToken).getD freshToken) ∧
    (mergeCompleteCluster jobDoc uid task docId key url existing freshToken).job.status
        = JStatus.completed ∧
    (mergeCompleteCluster jobDoc uid task docId key url existing freshToken).job.stage
        = JStage.completed ∧
    (mergeCompleteCluster jobDoc uid task docId key url existing freshToken).job.outputDocumentId
        = some docId := by
  cases existing with
  | none => simp [mergeCompleteCluster]
  | some g => cases hg : g.sessionToken <;> simp [mergeCompleteCluster, hg]

/-- C5 counterexample: the `pdfWorker.js` merge worker completes `jobMergeEx`
against an empty grant store (`existing = none`): the upserted grant carries no
session token although none existed, while the job is still marked completed —
the claimed token assignment does not happen in this worker. -/
theorem mergeCompleteMain_no_sessionToken :
    (mergeCompleteMain jobMergeEx "u1" mergeTaskEx "doc5" "mk" "murl" none).access.sessionToken
        = none ∧
    (mergeCompleteMain jobMergeEx "u1" mergeTaskEx "doc5" "mk" "murl" none).job.status
        = JStatus.completed ∧
    (mergeCompleteMain jobMergeEx "u1" mergeTaskEx "doc5" "mk" "murl" none).job.outputDocumentId
        = some "doc5" := by
  decide

/-! ## Asset resolution -/

theorem cacheGet_cons (k0 d k : String) (c : List (String × String)) :
    cacheGet ((k0, d) :: c) k = if k0 = k then some d else cacheGet c k := by
  by_cases h : k0 = k <;> simp [cacheGet, List.find?_cons, h]

/-- Looking a key up in the fetch cache is the same as fetching it directly,
provided the key was in the fetched set. -/
theorem cacheGet_buildCache (fetch : String → Option String) :
    ∀ (keys : List String) (k : String),
      cacheGet (buildCache fetch keys) k = if k ∈ keys then fetch k else none := by
  intro keys
  induction keys with
  | nil => intro k; simp [buildCache, cacheGet]
  | cons k0 rest ih =>
    intro k
    cases hf : fetch k0 with
    | none =>
      have hb : buildCache fetch (k0 :: rest) = buildCache fetch rest := by
        simp [buildCache, List.filterMap_cons, hf]
      rw [hb, ih k]
      by_cases hk : k = k0
      · subst hk
        simp [hf]
      · simp [List.mem_cons, hk]
    | some d =>
      have hb : buildCache fetch (k0 :: rest) = (k0, d) :: buildCache fetch rest := by
        simp [buildCache, List.filterMap_cons, hf]
      rw [hb, cacheGet_cons]
      by_cases hk : k = k0
      · subst hk
        simp [hf]
      · have hk' : ¬ k0 = k := fun h => hk h.symm
        rw [if_neg hk', ih k]
        simp [List.mem_cons, hk]

/-- C6 (amended): in `resolveS3ImagesToDataUrls` of `src/workers/pdfWorker.js`
the fetched key list is duplicate-free (each distinct referenced blob fetched at
most once per invocation) and contains only referenced keys; each item resolves
from its own key's fetch alone — one key's failure aborts neither the other
references nor the page — and on fetch failure the item keeps its original
`s3://` reference. (The `src/unnamed/part_000` second variant instead
overwrites `src` with the absent cache entry.) -/
theorem resolveS3Images_spec (fetch : String → Option String)
    (pages : List RenderPage) :
    (keysToFetch pages).Nodup ∧
    (∀ k ∈ keysToFetch pages, ∃ p ∈ pages, ∃ it ∈ p.items, s3KeyOf it = some k) ∧
    resolveS3Images fetch pages = pages.map (fun p =>
      { p with items := p.items.map fun it =>
          match it.src with
          | some s =>
            if jsStartsWith s "s3://" then
              { it with src := some ((fetch (s.drop 5)).getD s) }
            else it
          | none => it }) := by
  refine ⟨List.nodup_dedup _, ?_, ?_⟩
  · intro k hk
    have hk' : k ∈ pages.flatMap fun p => p.items.filterMap s3KeyOf :=
      List.dedup_subset _ hk
    rcases List.mem_flatMap.mp hk' with ⟨p, hp, hit⟩
    rcases List.mem_filterMap.mp hit with ⟨it, hitmem, hkey⟩
    exact ⟨p, hp, it, hitmem, hkey⟩
  · unfold resolveS3Images
    apply List.map_congr_left
    intro p hp
    congr 1
    apply List.map_congr_left
    intro it hit
    cases hsrc : it.src with
    | none => simp [hsrc]
    | some s =>
      by_cases hpre : jsStartsWith s "s3://"
      · have hmem : s.drop 5 ∈ keysToFetch pages := by
          apply List.mem_dedup.mpr
          apply List.mem_flatMap.mpr
          refine ⟨p, hp, List.mem_filterMap.mpr ⟨it, hit, ?_⟩⟩
          simp [s3KeyOf, hsrc, hpre]
        simp only [hsrc, hpre, if_true]
        rw [cacheGet_buildCache, if_pos hmem]
      · simp [hsrc, hpre]

/-- C6 witness: the `pdfWorker.js` resolver on a page referencing `k1` (fetch
fails) and `k2` (fetch succeeds) keeps the original `s3://k1` reference and
resolves `k2`. -/
theorem resolveS3Images_spec_witness :
    resolveS3Images fetchC6 pagesC6 =
      [{ items := [{ src := some "s3://k1", meta := "img1" },
                   { src := some "data:image/png;base64,AA", meta := "img2" }] }] := by
  rw [(resolveS3Images_spec fetchC6 pagesC6).2.2]
  decide

/-- C6 counterexample: the `src/unnamed/part_000` second resolver variant on the
same page leaves the failed item's `src` undefined (`none`) instead of
preserving the original `s3://k1` reference. -/
theorem resolveVariant2_drops_failed_reference :
    resolveS3ImagesVariant2 fetchC6 pagesC6 =
      [{ items := [{ src := none, meta := "img1" },
                   { src := some "data:image/png;base64,AA", meta := "img2" }] }] ∧
    ¬ resolveS3ImagesVariant2 fetchC6 pagesC6 =
      [{ items := [{ src := some "s3://k1", meta := "img1" },
                   { src := some "data:image/png;base64,AA", meta := "img2" }] }] := by
  decide

/-! ## Render-worker prologue -/

/-- C7 (amended): in both render workers, a task whose job record is absent is
acknowledged and dropped with no state modified; on a present job with a
missing owner identity, the `src/unnamed/part_000` worker marks the job
`stage = failed, status = failed` and throws, while the
`src/workers/pdfWorker.js` worker throws with the job left marked
`processing`/`rendering` — not failed. -/
theorem renderPrologue_spec (j : Job) (email : String) (user : Option String) :
    renderPrologueMain none user email = (.ack, none) ∧
    renderPrologueCluster none user email = (.ack, none) ∧
    renderPrologueCluster (some j) none email =
      (.err ("User with email " ++ email ++ " not found"),
       some { j with status := .failed, stage := .failed }) ∧
    renderPrologueMain (some j) none email =
      (.err ("User not found: " ++ email),
       some { j with status := .processing, stage := .rendering }) :=
  ⟨rfl, rfl, rfl, rfl⟩

/-- C7 counterexample: the `pdfWorker.js` render worker, on a present job and a
missing user, fails the task but leaves the job `processing`/`rendering` — it is
not marked `stage = failed, status = failed` as claimed. -/
theorem renderPrologueMain_missing_user_not_failed :
    (renderPrologueMain (some jobC7) none "owner@example.com").1 =
      RenderOutcome.err ("User not found: " ++ "owner@example.com") ∧
    (renderPrologueMain (some jobC7) none "owner@example.com").2 =
      some { jobC7 with status := JStatus.processing, stage := JStage.rendering } ∧
    ¬ (renderPrologueMain (some jobC7) none "owner@example.com").2 =
      some { jobC7 with status := JStatus.failed, stage := JStage.failed } := by
  decide

/-- C10 witness: the exhausted grant `grantSpentEx` is rejected with the quota
message and left unchanged; the dangling grant `grantDanglingEx` receives 404
with `usedPrints` already advanced from 0 to 1. -/
theorem securePrint_quota_and_dangling_doc_witness :
    (securePrint "u1" (some "tokB") [grantSpentEx] getDocEx (some "bkt") presignEx =
      (.badRequest "Print limit exceeded", [grantSpentEx])) ∧
    (securePrint "u1" (some "tokC") [grantDanglingEx] getDocEx (some "bkt") presignEx =
      (.notFound "Document not found", [{ grantDanglingEx with usedPrints := 1 }])) :=
  ⟨(securePrint_quota_and_dangling_doc "u1" "tokB" [grantSpentEx] getDocEx
      (some "bkt") presignEx grantSpentEx (by decide) (by decide)).1 (by decide),
   (securePrint_quota_and_dangling_doc "u1" "tokC" [grantDanglingEx] getDocEx
      (some "bkt") presignEx grantDanglingEx (by decide) (by decide)).2
      (by decide) (by decide)⟩

end SecureBackend
